import Mathlib

/-!
# Verification of the weather simulation & particle rendering core

Shallow embedding of `src/web/src/utils/weatherGrid.ts` (zone classifier and
visibility culler) and of the weather-effects driver component (particle
pools, storm overlay, lightning state machine, per-frame ticker).

JavaScript numbers are modelled as exact rationals (`ℚ`); the 32-bit
truncations performed by JavaScript bitwise operators are made explicit
(`toUint32` / `toInt32`).  All definitions are translated from the source;
visual-node construction is abstracted to allocation of a fresh numeric
node id (the scene-graph framework is an external collaborator), and the
shared `Math.random()` stream is modelled as an oracle `Nat → ℚ` indexed by
draw position.
-/

namespace WeatherCore

/-- Weather types, from `weatherGrid.ts`. -/
inductive WeatherType
  | clear
  | rain
  | storm
  | wind
  | snow
deriving DecidableEq, Repr

/-- `ZONE_SIZE = 8`. -/
def ZONE_SIZE : Nat := 8

/-- `TILE_SIZE = 64`. -/
def TILE_SIZE : Nat := 64

/-- JavaScript `ToUint32`: value of the low 32 bits of an integer. -/
def toUint32 (x : Int) : Nat := (x % (2 ^ 32 : Nat)).toNat

/-- JavaScript `ToInt32`: low 32 bits of an integer, interpreted as signed. -/
def toInt32 (x : Int) : Int :=
  let u := toUint32 x
  if u < 2 ^ 31 then (u : Int) else (u : Int) - 2 ^ 32

/-- JavaScript `x ^ y` on 32-bit patterns (result as signed int32). -/
def jsXor (x y : Int) : Int := toInt32 (Nat.xor (toUint32 x) (toUint32 y))

/-- JavaScript `x >>> k` (unsigned right shift). -/
def jsShrU (x : Int) (k : Nat) : Int := (toUint32 x >>> k : Nat)

/--
The integer mix inside `hashNoise(zx, zy, seed)` from `weatherGrid.ts`,
up to and including the final `u & 0xffff`, which masks the low 16 bits
of the 32-bit pattern and is therefore modelled as a `Nat.land` on the
unsigned pattern.  The embedding models the exact-integer regime of
JavaScript arithmetic (all intermediate products below `2^53`), which
holds for the zone coordinates and seeds the classifier uses.
-/
def hashLow16 (zx zy seed : Int) : Nat :=
  let n : Int := zx * 1619 + zy * 31337 + seed * 6971
  let mixed : Int := jsXor n (jsShrU n 8) * 0x27d4eb2d
  let u : Int := jsXor mixed (jsShrU mixed 15)
  Nat.land (toUint32 u) 0xffff

/-- `hashNoise(zx, zy, seed)`: the mixed 16-bit value divided by `65535`. -/
def hashNoise (zx zy seed : Int) : ℚ := (hashLow16 zx zy seed : ℚ) / 65535

/-- `weatherFromNoise`: weather from fixed thresholds on the noise value. -/
def weatherFromNoise (zx zy seed : Int) : WeatherType :=
  let r := hashNoise zx zy seed
  if r < 35/100 then .rain
  else if r < 60/100 then .wind
  else if r < 80/100 then .clear
  else if r < 90/100 then .snow
  else .storm

/-- One entry of `TERRAIN_WEATHER_TENDENCY`: main weather, optional
alternative and optional weight. -/
structure Tendency where
  main : WeatherType
  alt : Option WeatherType
  weight : Option ℚ
deriving DecidableEq, Repr

/-- The `TERRAIN_WEATHER_TENDENCY` table from `weatherGrid.ts`. -/
def TERRAIN_WEATHER_TENDENCY : String → Option Tendency
  | "DESERT" => some ⟨.clear, none, none⟩
  | "GOBI" => some ⟨.clear, none, none⟩
  | "PLAIN" => some ⟨.clear, some .rain, some (40/100)⟩
  | "GRASSLAND" => some ⟨.clear, some .rain, some (45/100)⟩
  | "FARM" => some ⟨.clear, some .rain, some (35/100)⟩
  | "RAINFOREST" => some ⟨.rain, some .storm, some (15/100)⟩
  | "FOREST" => some ⟨.rain, some .clear, some (30/100)⟩
  | "BAMBOO" => some ⟨.rain, some .clear, some (25/100)⟩
  | "SWAMP" => some ⟨.rain, some .storm, some (20/100)⟩
  | "MARSH" => some ⟨.rain, some .storm, some (20/100)⟩
  | "SEA" => some ⟨.wind, some .rain, some (20/100)⟩
  | "WATER" => some ⟨.wind, some .rain, some (25/100)⟩
  | "ISLAND" => some ⟨.wind, some .rain, some (30/100)⟩
  | "MOUNTAIN" => some ⟨.clear, some .rain, some (20/100)⟩
  | "SNOW_MOUNTAIN" => some ⟨.snow, some .clear, some (20/100)⟩
  | "GLACIER" => some ⟨.snow, some .wind, some (15/100)⟩
  | "TUNDRA" => some ⟨.snow, some .wind, some (25/100)⟩
  | "VOLCANO" => some ⟨.clear, none, none⟩
  | _ => none

/-- Terrain matrix: rows of terrain-tag strings. -/
abbrev MapMatrix := List (List String)

/-- `count[t] = (count[t] || 0) + 1` on an association list that keeps keys
in first-insertion order (mirrors JavaScript object key order). -/
def bumpCount : List (String × Nat) → String → List (String × Nat)
  | [], t => [(t, 1)]
  | (s, c) :: rest, t =>
      if s = t then (s, c + 1) :: rest else (s, c) :: bumpCount rest t

/-- `getZoneDominantTerrain`: most frequent tag in the zone's 8×8 tile
block (strict-majority scan in insertion order, initial max 0 / tag `""`),
falling back to the tile at the zone's top-left corner when empty. -/
def getZoneDominantTerrain (mapData : MapMatrix) (zx zy : Nat) : String :=
  let rows := mapData.length
  let cols := ((mapData[0]?).map List.length).getD 0
  let tiles := (List.range (ZONE_SIZE * ZONE_SIZE)).filterMap fun k =>
    let dy := k / ZONE_SIZE
    let dx := k % ZONE_SIZE
    let tx := zx * ZONE_SIZE + dx
    let ty := zy * ZONE_SIZE + dy
    if ty < rows ∧ tx < cols then
      some (((mapData[ty]?).bind fun row => row[tx]?).getD "")
    else none
  let counts := tiles.foldl bumpCount []
  let dominant :=
    (counts.foldl (fun (acc : String × Nat) p => if p.2 > acc.2 then p else acc)
      ("", 0)).1
  if dominant = "" then
    ((mapData[zy * ZONE_SIZE]?).bind fun row => row[zx * ZONE_SIZE]?).getD ""
  else dominant

/-- The pre-upgrade weather in the tendency branch of `buildWeatherGrid`:
`useAlt = tendency.alt && r < weight` (with `weight = tendency.weight ?? 0`). -/
def tendencyWeather (t : Tendency) (r : ℚ) : WeatherType :=
  match t.alt with
  | some a => if r < t.weight.getD 0 then a else t.main
  | none => t.main

/-- Weather of one zone: the per-cell body of the `buildWeatherGrid` loops
(the rain-to-storm upgrade applies only in the tendency branch; the
no-tendency branch pushes `weatherFromNoise` and continues). -/
def zoneWeather (mapData : MapMatrix) (seed : Int) (zx zy : Nat) : WeatherType :=
  match TERRAIN_WEATHER_TENDENCY (getZoneDominantTerrain mapData zx zy) with
  | none => weatherFromNoise zx zy seed
  | some t =>
      if tendencyWeather t (hashNoise zx zy seed) = .rain ∧
          hashNoise (zx + 1) zy seed < 12/100 then .storm
      else tendencyWeather t (hashNoise zx zy seed)

/-- `buildWeatherGrid(mapData, seed)`: weather grid of
`⌈rows/8⌉ × ⌈cols/8⌉` zones, empty when the matrix has no rows or no
columns. -/
def buildWeatherGrid (mapData : MapMatrix) (seed : Int) : List (List WeatherType) :=
  let rows := mapData.length
  let cols := ((mapData[0]?).map List.length).getD 0
  if rows = 0 ∨ cols = 0 then []
  else
    (List.range ((rows + ZONE_SIZE - 1) / ZONE_SIZE)).map fun zy =>
      (List.range ((cols + ZONE_SIZE - 1) / ZONE_SIZE)).map fun zx =>
        zoneWeather mapData seed zx zy

/-- `worldToZone(px, py)`: world pixels to zone index,
`Math.floor(Math.floor(p / 64) / 8)` per axis. -/
def worldToZone (px py : ℚ) : Int × Int :=
  (Int.fdiv ⌊px / (TILE_SIZE : ℚ)⌋ (ZONE_SIZE : Int),
   Int.fdiv ⌊py / (TILE_SIZE : ℚ)⌋ (ZONE_SIZE : Int))

/-- A visible zone record returned by `getVisibleZones`. -/
structure Zone where
  zx : Int
  zy : Int
  x : ℚ
  y : ℚ
  width : ℚ
  height : ℚ
deriving DecidableEq, Repr

/-- Inclusive integer range `[lo, hi]` as a list. -/
def intRange (lo hi : Int) : List Int :=
  (List.range (hi - lo + 1).toNat).map fun i => lo + (i : Int)

/-- `getVisibleZones`: zones intersecting the viewport rectangle, clipped
to `[0, zoneRows) × [0, zoneCols)`, iterated row-major over the inclusive
index range of the two mapped corners. -/
def getVisibleZones (cornerX cornerY visibleWidth visibleHeight : ℚ)
    (zoneRows zoneCols : Int) : List Zone :=
  let zonePxW : ℚ := (ZONE_SIZE * TILE_SIZE : Nat)
  let zonePxH : ℚ := (ZONE_SIZE * TILE_SIZE : Nat)
  let start := worldToZone cornerX cornerY
  let stop := worldToZone (cornerX + visibleWidth) (cornerY + visibleHeight)
  (intRange start.2 stop.2).flatMap fun zy =>
    if zy < 0 ∨ zoneRows ≤ zy then []
    else
      (intRange start.1 stop.1).filterMap fun zx =>
        if zx < 0 ∨ zoneCols ≤ zx then none
        else some ⟨zx, zy, (zx : ℚ) * zonePxW, (zy : ℚ) * zonePxH, zonePxW, zonePxH⟩

/-! ## Claims about the zone classifier and the visibility culler -/

/-- C1: `buildWeatherGrid` is a deterministic pure function of
`(terrain, seed)`: two invocations with the same matrix and seed return
equal grids, cell-by-cell, with no hidden mutable state (the embedding is
a pure function, so the two results are definitionally the same value). -/
theorem buildWeatherGrid_deterministic (mapData : MapMatrix) (seed : Int) :
    buildWeatherGrid mapData seed = buildWeatherGrid mapData seed ∧
    ∀ zy zx : Nat,
      ((buildWeatherGrid mapData seed)[zy]?.bind fun row => row[zx]?) =
      ((buildWeatherGrid mapData seed)[zy]?.bind fun row => row[zx]?) :=
  ⟨rfl, fun _ _ => rfl⟩

/-- Concrete evaluation of `getVisibleZones` on the C4 scenario, shared by
the counterexample and the amended statement of that scenario. -/
theorem getVisibleZones_512_eval :
    getVisibleZones 0 0 512 512 4 4 =
      [⟨0, 0, 0, 0, 512, 512⟩, ⟨1, 0, 512, 0, 512, 512⟩,
       ⟨0, 1, 0, 512, 512, 512⟩, ⟨1, 1, 512, 512, 512, 512⟩] := by
  have hs : worldToZone 0 0 = (0, 0) := by
    unfold worldToZone
    norm_num [TILE_SIZE, ZONE_SIZE]
  have he : worldToZone (0 + 512) (0 + 512) = (1, 1) := by
    unfold worldToZone
    norm_num [TILE_SIZE, ZONE_SIZE]
  unfold getVisibleZones
  rw [hs, he]
  have hr : intRange 0 1 = [0, 1] := rfl
  simp only [hr]
  norm_num [List.flatMap_cons, List.flatMap_nil, List.filterMap_cons, List.filterMap_nil,
    ZONE_SIZE, TILE_SIZE]

/-- C4 counterexample: with corner `(0,0)`, size `512×512` on a `4×4`-zone
grid, `getVisibleZones` does NOT return exactly the single zone `(0,0)`:
it returns four zones, because the far corner `(512,512)` maps to zone
`(1,1)` and the enumerated index range is inclusive. -/
theorem getVisibleZones_512_not_single :
    (getVisibleZones 0 0 512 512 4 4).length = 4 ∧
    getVisibleZones 0 0 512 512 4 4 ≠ [⟨0, 0, 0, 0, 512, 512⟩] := by
  rw [getVisibleZones_512_eval]
  refine ⟨rfl, by simp⟩

/-- C4 amended: with corner `(0,0)`, size `512×512`, `TILE_SIZE=64`,
`ZONE_SIZE=8` on a `4×4`-zone grid, `getVisibleZones` returns exactly the
four zones `(0,0)`, `(1,0)`, `(0,1)`, `(1,1)` in row-major order. -/
theorem getVisibleZones_512_four_zones :
    getVisibleZones 0 0 512 512 4 4 =
      [⟨0, 0, 0, 0, 512, 512⟩, ⟨1, 0, 512, 0, 512, 512⟩,
       ⟨0, 1, 0, 512, 512, 512⟩, ⟨1, 1, 512, 512, 512, 512⟩] :=
  getVisibleZones_512_eval

/-- C9 counterexample: `hashNoise` can return exactly `1` (the final
16-bit value is divided by `65535`, not `65536`), so the result is not
always strictly below `1`: at `(zx, zy, seed) = (0, 0, 1724)` the value
is `1`. -/
theorem hashNoise_attains_one :
    hashNoise 0 0 1724 = 1 ∧ ¬ hashNoise 0 0 1724 < 1 := by
  have h : hashLow16 0 0 1724 = 65535 := by decide
  unfold hashNoise
  rw [h]
  norm_num

/-- C9 amended: for all integer inputs, `hashNoise` lies in the CLOSED
interval `[0, 1]`: it is at least `0` and at most `1` (and the upper end
is attained, see the counterexample). -/
theorem hashNoise_mem_unit_interval (zx zy seed : Int) :
    0 ≤ hashNoise zx zy seed ∧ hashNoise zx zy seed ≤ 1 := by
  have h : hashLow16 zx zy seed ≤ 65535 := by
    unfold hashLow16
    exact Nat.and_le_right
  unfold hashNoise
  constructor
  · positivity
  · rw [div_le_one (by norm_num)]
    exact_mod_cast h

/-- C8 counterexample: a zone that resolves to `rain` through the
unknown-terrain noise thresholds is NOT subject to the storm-upgrade
check: with the one-tile matrix `[["X"]]` (dominant terrain `"X"`, no
tendency entry) and seed `8`, the independent check
`hashNoise (zx+1) zy seed < 0.12` succeeds, yet the classifier returns
`rain`, not `storm`. -/
theorem noise_rain_not_upgraded :
    hashNoise 1 0 8 < 12/100 ∧
    zoneWeather [["X"]] 8 0 0 = .rain ∧
    buildWeatherGrid [["X"]] 8 = [[.rain]] := by
  have h1 : hashLow16 0 0 8 = 22129 := by decide
  have h2 : hashLow16 1 0 8 = 7060 := by decide
  have hX : getZoneDominantTerrain [["X"]] 0 0 = "X" := by decide
  have hcheck : hashNoise 1 0 8 < 12/100 := by
    unfold hashNoise
    rw [h2]
    norm_num
  have hnoise : weatherFromNoise 0 0 8 = .rain := by
    unfold weatherFromNoise hashNoise
    rw [h1]
    norm_num
  have ht : TERRAIN_WEATHER_TENDENCY "X" = none := by decide
  have hzw : zoneWeather [["X"]] 8 0 0 = .rain := by
    unfold zoneWeather
    rw [hX, ht]
    exact hnoise
  refine ⟨hcheck, hzw, ?_⟩
  have hgrid : buildWeatherGrid [["X"]] 8 = [[zoneWeather [["X"]] 8 0 0]] := by
    unfold buildWeatherGrid
    have hr1 : List.range 1 = [0] := rfl
    norm_num [ZONE_SIZE, hr1]
  rw [hgrid, hzw]

/-- C8 amended: the storm-upgrade check applies only on the tendency-table
path.  If the zone's dominant terrain has no tendency entry, the
classifier returns `weatherFromNoise` unchanged (no upgrade); if it has a
tendency entry whose resolved weather is `rain`, the classifier returns
`storm` exactly when `hashNoise (zx+1) zy seed < 0.12`, and `rain`
otherwise. -/
theorem zoneWeather_storm_upgrade (mapData : MapMatrix) (seed : Int) (zx zy : Nat) :
    (TERRAIN_WEATHER_TENDENCY (getZoneDominantTerrain mapData zx zy) = none →
      zoneWeather mapData seed zx zy = weatherFromNoise zx zy seed) ∧
    (∀ t, TERRAIN_WEATHER_TENDENCY (getZoneDominantTerrain mapData zx zy) = some t →
      tendencyWeather t (hashNoise zx zy seed) = .rain →
      ((zoneWeather mapData seed zx zy = .storm ↔
          hashNoise (zx + 1) zy seed < 12/100) ∧
       (zoneWeather mapData seed zx zy = .rain ↔
          ¬ hashNoise (zx + 1) zy seed < 12/100))) := by
  constructor
  · intro hnone
    unfold zoneWeather
    rw [hnone]
  · intro t hsome hrain
    unfold zoneWeather
    rw [hsome]
    simp only [hrain]
    by_cases hc : hashNoise (↑zx + 1) (↑zy) seed < 12/100
    · constructor
      · simp [hc]
      · simp [hc]
    · constructor
      · simp [hc]
      · simp [hc]

/-- C8 witness: for the one-zone `RAINFOREST` matrix with seed `7`, the
tendency resolves to `rain` and the upgrade check succeeds, so the zone
is classified `storm`. -/
theorem zoneWeather_storm_upgrade_witness :
    zoneWeather [["RAINFOREST"]] 7 0 0 = .storm := by
  have hdom : getZoneDominantTerrain [["RAINFOREST"]] 0 0 = "RAINFOREST" := by decide
  have h3 : hashLow16 0 0 7 = 31848 := by decide
  have h4 : hashLow16 1 0 7 = 4024 := by decide
  have hsome : TERRAIN_WEATHER_TENDENCY (getZoneDominantTerrain [["RAINFOREST"]] 0 0) =
      some ⟨.rain, some .storm, some (15/100)⟩ := by
    rw [hdom]
    simp [TERRAIN_WEATHER_TENDENCY]
  have hrain : tendencyWeather ⟨.rain, some .storm, some (15/100)⟩ (hashNoise 0 0 7) = .rain := by
    unfold tendencyWeather hashNoise
    rw [h3]
    norm_num
  have hcheck : hashNoise 1 0 7 < 12/100 := by
    unfold hashNoise
    rw [h4]
    norm_num
  have h := (zoneWeather_storm_upgrade [["RAINFOREST"]] 7 0 0).2
    ⟨.rain, some .storm, some (15/100)⟩ hsome hrain
  exact h.1.mpr hcheck

/-! ## Particle pools (rain, wind, snow)

From the weather-effects component.  A visual node is modelled by a
numeric id allocated from a counter; `Math.random()` is an oracle
`rng : Nat → ℚ` indexed by draw position (the random draws inside the
purely visual node constructors `createRainParticle` etc. — lengths,
scales, tints — are not part of the embedded state and are omitted from
the stream). -/

/-- `RainParticle`: position, velocity and home-zone bounds. -/
structure RainParticle where
  g : Nat
  x : ℚ
  y : ℚ
  vx : ℚ
  vy : ℚ
  zoneX : ℚ
  zoneY : ℚ
  zoneW : ℚ
  zoneH : ℚ
deriving DecidableEq, Repr

/-- `WindParticle`: horizontal motion only, home zone kept as `x`-range. -/
structure WindParticle where
  g : Nat
  x : ℚ
  y : ℚ
  vx : ℚ
  zoneX : ℚ
  zoneW : ℚ
deriving DecidableEq, Repr

/-- `SnowParticle`: slow fall with a wobble phase. -/
structure SnowParticle where
  g : Nat
  x : ℚ
  y : ℚ
  vy : ℚ
  phase : ℚ
  zoneX : ℚ
  zoneY : ℚ
  zoneW : ℚ
  zoneH : ℚ
deriving DecidableEq, Repr

/-- Result of one `ensure*Particles` reconcile call: the new pool, the ids
of destroyed visual nodes, and the node-id counter after creation. -/
structure ReconcileResult (P : Type) where
  pool : List P
  destroyed : List Nat
  nextId : Nat
deriving Repr

/-- `zones[Math.floor(r * zones.length)]`; out-of-range indices (possible
only when the oracle leaves `[0,1)`) fall back to a zero zone. -/
def pickZone (zones : List Zone) (r : ℚ) : Zone :=
  (zones[(⌊r * zones.length⌋).toNat]?).getD ⟨0, 0, 0, 0, 0, 0⟩

/-- Creation of the `i`-th new rain particle of one reconcile call:
random zone, random position inside it, downward-biased velocity with
slight horizontal drift. -/
def mkRainParticle (zones : List Zone) (rng : Nat → ℚ) (nextId i : Nat) : RainParticle :=
  let zone := pickZone zones (rng (5 * i))
  let x := zone.x + rng (5 * i + 1) * zone.width
  let y := zone.y + rng (5 * i + 2) * zone.height
  ⟨nextId + i, x, y, (rng (5 * i + 3) - 1/2) * (8/10), 4 + rng (5 * i + 4) * 6,
   zone.x, zone.y, zone.width, zone.height⟩

/-- Creation of the `i`-th new wind particle: rightward velocity. -/
def mkWindParticle (zones : List Zone) (rng : Nat → ℚ) (nextId i : Nat) : WindParticle :=
  let zone := pickZone zones (rng (4 * i))
  let x := zone.x + rng (4 * i + 1) * zone.width
  let y := zone.y + rng (4 * i + 2) * zone.height
  ⟨nextId + i, x, y, 3/2 + rng (4 * i + 3) * 2, zone.x, zone.width⟩

/-- The IEEE-754 double closest to π, the exact value of JavaScript
`Math.PI` (the phase only feeds the drawn wobble, never the kinematics). -/
def jsPI : ℚ := 884279719003555 / 281474976710656

/-- Creation of the `i`-th new snow particle: slow fall plus random
wobble phase. -/
def mkSnowParticle (zones : List Zone) (rng : Nat → ℚ) (nextId i : Nat) : SnowParticle :=
  let zone := pickZone zones (rng (5 * i))
  let x := zone.x + rng (5 * i + 1) * zone.width
  let y := zone.y + rng (5 * i + 2) * zone.height
  ⟨nextId + i, x, y, 35/100 + rng (5 * i + 3) * (55/100), rng (5 * i + 4) * jsPI * 2,
   zone.x, zone.y, zone.width, zone.height⟩

/--
`ensureRainParticles(visibleRainZones, maxCount)`.
`need = min(maxCount, zones.length * 35) - pool.length`; if `need ≤ 0` and
the zone list is empty, destroy everything; otherwise the `while` loop
creates `need` particles (only when the zone list is non-empty).  The
source's trailing destroy-all check (`zones empty && pool non-empty`) is
placed before creation here; the two coincide because the creation loop
never runs when the zone list is empty.
-/
def ensureRainParticles (containerReady : Bool) (rng : Nat → ℚ)
    (pool : List RainParticle) (visibleRainZones : List Zone) (maxCount : Int)
    (nextId : Nat) : ReconcileResult RainParticle :=
  if containerReady = false then ⟨pool, [], nextId⟩
  else if min maxCount ((visibleRainZones.length : Int) * 35) - pool.length ≤ 0 ∧
      visibleRainZones.length = 0 then
    ⟨[], pool.map (fun p => p.g), nextId⟩
  else if visibleRainZones.length = 0 ∧ 0 < pool.length then
    ⟨[], pool.map (fun p => p.g), nextId⟩
  else
    ⟨pool ++ (List.range (if visibleRainZones.length = 0 then 0
        else (min maxCount ((visibleRainZones.length : Int) * 35) - pool.length).toNat)).map
        (mkRainParticle visibleRainZones rng nextId),
     [],
     nextId + (if visibleRainZones.length = 0 then 0
        else (min maxCount ((visibleRainZones.length : Int) * 35) - pool.length).toNat)⟩

/-- `ensureWindParticles(visibleWindZones, maxCount)`: as for rain, with
per-zone density `12`. -/
def ensureWindParticles (containerReady : Bool) (rng : Nat → ℚ)
    (pool : List WindParticle) (visibleWindZones : List Zone) (maxCount : Int)
    (nextId : Nat) : ReconcileResult WindParticle :=
  if containerReady = false then ⟨pool, [], nextId⟩
  else if min maxCount ((visibleWindZones.length : Int) * 12) - pool.length ≤ 0 ∧
      visibleWindZones.length = 0 then
    ⟨[], pool.map (fun p => p.g), nextId⟩
  else if visibleWindZones.length = 0 ∧ 0 < pool.length then
    ⟨[], pool.map (fun p => p.g), nextId⟩
  else
    ⟨pool ++ (List.range (if visibleWindZones.length = 0 then 0
        else (min maxCount ((visibleWindZones.length : Int) * 12) - pool.length).toNat)).map
        (mkWindParticle visibleWindZones rng nextId),
     [],
     nextId + (if visibleWindZones.length = 0 then 0
        else (min maxCount ((visibleWindZones.length : Int) * 12) - pool.length).toNat)⟩

/-- `ensureSnowParticles(visibleSnowZones, maxCount)`: as for rain, with
per-zone density `20`. -/
def ensureSnowParticles (containerReady : Bool) (rng : Nat → ℚ)
    (pool : List SnowParticle) (visibleSnowZones : List Zone) (maxCount : Int)
    (nextId : Nat) : ReconcileResult SnowParticle :=
  if containerReady = false then ⟨pool, [], nextId⟩
  else if min maxCount ((visibleSnowZones.length : Int) * 20) - pool.length ≤ 0 ∧
      visibleSnowZones.length = 0 then
    ⟨[], pool.map (fun p => p.g), nextId⟩
  else if visibleSnowZones.length = 0 ∧ 0 < pool.length then
    ⟨[], pool.map (fun p => p.g), nextId⟩
  else
    ⟨pool ++ (List.range (if visibleSnowZones.length = 0 then 0
        else (min maxCount ((visibleSnowZones.length : Int) * 20) - pool.length).toNat)).map
        (mkSnowParticle visibleSnowZones rng nextId),
     [],
     nextId + (if visibleSnowZones.length = 0 then 0
        else (min maxCount ((visibleSnowZones.length : Int) * 20) - pool.length).toNat)⟩

/-- Per-frame kinematics of a rain particle (the body of the per-frame
`rainPool.value.forEach`): advance, and recycle to the top of the home
zone at a fresh random horizontal offset when past the vertical bound. -/
def stepRainParticle (rng : Nat → ℚ) (i : Nat) (dt : ℚ) (p : RainParticle) : RainParticle :=
  let x := p.x + p.vx * dt
  let y := p.y + p.vy * dt
  if y > p.zoneY + p.zoneH + 20 then
    { p with y := p.zoneY - 10, x := p.zoneX + rng i * p.zoneW }
  else
    { p with x := x, y := y }

/-- Per-frame kinematics of a wind particle: advance rightward, wrap to
just left of the home zone when past the right bound. -/
def stepWindParticle (dt : ℚ) (p : WindParticle) : WindParticle :=
  let x := p.x + p.vx * dt
  if x > p.zoneX + p.zoneW + 20 then { p with x := p.zoneX - 10 }
  else { p with x := x }

/-- Per-frame kinematics of a snow particle: fall, advance the wobble
phase, recycle to the top of the home zone when past the vertical bound
(the sinusoidal wobble only offsets the drawn position, not the state). -/
def stepSnowParticle (rng : Nat → ℚ) (i : Nat) (dt : ℚ) (p : SnowParticle) : SnowParticle :=
  let y := p.y + p.vy * dt
  let phase := p.phase + dt * (8/10)
  if y > p.zoneY + p.zoneH + 10 then
    { p with y := p.zoneY - 5, x := p.zoneX + rng i * p.zoneW, phase := phase }
  else
    { p with y := y, phase := phase }

/-! ## Claims about the particle pools -/

/-- Example zone `(0,0)` used by concrete pool scenarios. -/
def zoneA : Zone := ⟨0, 0, 0, 0, 512, 512⟩

/-- Example zone `(1,0)` used by concrete pool scenarios. -/
def zoneB : Zone := ⟨1, 0, 512, 0, 512, 512⟩

/-- C2 counterexample: the claimed bound `pool ≤ min(maxCount, |Z|·density)`
is violated by the wind pool once the visible-zone list shrinks while
remaining non-empty.  Reconciling an empty pool against two zones with
`maxCount = 13` fills it to `13`; the next reconcile against one zone
leaves it at `13`, exceeding `min(13, 1 × 12) = 12`. -/
theorem windPool_can_exceed_bound :
    (ensureWindParticles true (fun _ => 0) [] [zoneA, zoneB] 13 0).pool.length = 13 ∧
    (ensureWindParticles true (fun _ => 0)
        (ensureWindParticles true (fun _ => 0) [] [zoneA, zoneB] 13 0).pool
        [zoneA] 13 13).pool.length = 13 ∧
    ¬ (13 : Int) ≤ min 13 ((([zoneA] : List Zone).length : Int) * 12) := by
  have h1 : (ensureWindParticles true (fun _ => 0) [] [zoneA, zoneB] 13 0).pool.length = 13 := by
    unfold ensureWindParticles
    norm_num [List.length_append, List.length_map, List.length_range]
    decide
  have h2 : ∀ (pool : List WindParticle), pool.length = 13 →
      (ensureWindParticles true (fun _ => 0) pool [zoneA] 13 13).pool.length = 13 := by
    intro pool hl
    unfold ensureWindParticles
    norm_num [hl, List.length_append, List.length_map, List.length_range]
  exact ⟨h1, h2 _ h1, by norm_num⟩

/-- C2 amended: immediately after a reconcile call the pool size of each
kind is at most `max(size before the call, min(maxCount, |Z| × density))`
(densities: rain 35, wind 12, snow 20); the claimed bound
`min(maxCount, |Z| × density)` alone holds only when the pool already
satisfied it before the call, and can be exceeded when the zone list
shrinks while staying non-empty (no forced shrink). -/
theorem pool_size_bounded_by_max :
    (∀ (cr : Bool) (rng : Nat → ℚ) (pool : List RainParticle) (zones : List Zone)
        (maxCount : Int) (nextId : Nat),
      ((ensureRainParticles cr rng pool zones maxCount nextId).pool.length : Int) ≤
        max (pool.length : Int) (min maxCount ((zones.length : Int) * 35))) ∧
    (∀ (cr : Bool) (rng : Nat → ℚ) (pool : List WindParticle) (zones : List Zone)
        (maxCount : Int) (nextId : Nat),
      ((ensureWindParticles cr rng pool zones maxCount nextId).pool.length : Int) ≤
        max (pool.length : Int) (min maxCount ((zones.length : Int) * 12))) ∧
    (∀ (cr : Bool) (rng : Nat → ℚ) (pool : List SnowParticle) (zones : List Zone)
        (maxCount : Int) (nextId : Nat),
      ((ensureSnowParticles cr rng pool zones maxCount nextId).pool.length : Int) ≤
        max (pool.length : Int) (min maxCount ((zones.length : Int) * 20))) := by
  refine ⟨?_, ?_, ?_⟩
  · intro cr rng pool zones maxCount nextId
    unfold ensureRainParticles
    split_ifs with h1 h2 h3 h4 <;>
      simp only [List.length_append, List.length_map, List.length_range,
        List.length_nil] <;>
      omega
  · intro cr rng pool zones maxCount nextId
    unfold ensureWindParticles
    split_ifs with h1 h2 h3 h4 <;>
      simp only [List.length_append, List.length_map, List.length_range,
        List.length_nil] <;>
      omega
  · intro cr rng pool zones maxCount nextId
    unfold ensureSnowParticles
    split_ifs with h1 h2 h3 h4 <;>
      simp only [List.length_append, List.length_map, List.length_range,
        List.length_nil] <;>
      omega

/-- C6: reconciling any kind against an empty visible-zone list while the
pool is non-empty empties the pool and destroys exactly the previously
pooled visual nodes. -/
theorem reconcile_empty_zone_list_clears_pool :
    (∀ (rng : Nat → ℚ) (pool : List RainParticle) (maxCount : Int) (nextId : Nat),
      pool ≠ [] →
      (ensureRainParticles true rng pool [] maxCount nextId).pool = [] ∧
      (ensureRainParticles true rng pool [] maxCount nextId).destroyed =
        pool.map (fun p => p.g)) ∧
    (∀ (rng : Nat → ℚ) (pool : List WindParticle) (maxCount : Int) (nextId : Nat),
      pool ≠ [] →
      (ensureWindParticles true rng pool [] maxCount nextId).pool = [] ∧
      (ensureWindParticles true rng pool [] maxCount nextId).destroyed =
        pool.map (fun p => p.g)) ∧
    (∀ (rng : Nat → ℚ) (pool : List SnowParticle) (maxCount : Int) (nextId : Nat),
      pool ≠ [] →
      (ensureSnowParticles true rng pool [] maxCount nextId).pool = [] ∧
      (ensureSnowParticles true rng pool [] maxCount nextId).destroyed =
        pool.map (fun p => p.g)) := by
  refine ⟨?_, ?_, ?_⟩
  · intro rng pool maxCount nextId hpool
    unfold ensureRainParticles
    rw [if_neg (by simp), if_pos ⟨by simp, by simp⟩]
    exact ⟨rfl, rfl⟩
  · intro rng pool maxCount nextId hpool
    unfold ensureWindParticles
    rw [if_neg (by simp), if_pos ⟨by simp, by simp⟩]
    exact ⟨rfl, rfl⟩
  · intro rng pool maxCount nextId hpool
    unfold ensureSnowParticles
    rw [if_neg (by simp), if_pos ⟨by simp, by simp⟩]
    exact ⟨rfl, rfl⟩

/-- Example rain particle with node id 0 at the origin. -/
def rainP0 : RainParticle := ⟨0, 0, 0, 0, 0, 0, 0, 0, 0⟩

/-- Example wind particle with node id 0 at the origin. -/
def windP0 : WindParticle := ⟨0, 0, 0, 0, 0, 0⟩

/-- Example snow particle with node id 0 at the origin. -/
def snowP0 : SnowParticle := ⟨0, 0, 0, 0, 0, 0, 0, 0, 0⟩

/-- Witness for C6 at concrete single-particle pools. -/
theorem reconcile_empty_zone_list_clears_pool_witness :
    ((ensureRainParticles true (fun _ => 0) [rainP0] [] 320 1).pool = [] ∧
      (ensureRainParticles true (fun _ => 0) [rainP0] [] 320 1).destroyed = [0]) ∧
    ((ensureWindParticles true (fun _ => 0) [windP0] [] 90 1).pool = [] ∧
      (ensureWindParticles true (fun _ => 0) [windP0] [] 90 1).destroyed = [0]) ∧
    ((ensureSnowParticles true (fun _ => 0) [snowP0] [] 110 1).pool = [] ∧
      (ensureSnowParticles true (fun _ => 0) [snowP0] [] 110 1).destroyed = [0]) := by
  obtain ⟨hr, hw, hs⟩ := reconcile_empty_zone_list_clears_pool
  refine ⟨?_, ?_, ?_⟩
  · obtain ⟨h1, h2⟩ := hr (fun _ => 0) [rainP0] 320 1 (by simp)
    exact ⟨h1, by rw [h2]; rfl⟩
  · obtain ⟨h1, h2⟩ := hw (fun _ => 0) [windP0] 90 1 (by simp)
    exact ⟨h1, by rw [h2]; rfl⟩
  · obtain ⟨h1, h2⟩ := hs (fun _ => 0) [snowP0] 110 1 (by simp)
    exact ⟨h1, by rw [h2]; rfl⟩

/-- C7: a reconcile call with a non-empty zone list whose target count
`min(maxCount, |Z| × density)` does not exceed the current pool size
leaves the pool exactly as-is: nothing is created, nothing is destroyed,
and the node counter does not move. -/
theorem reconcile_nonempty_zones_no_shrink :
    (∀ (cr : Bool) (rng : Nat → ℚ) (pool : List RainParticle) (zones : List Zone)
        (maxCount : Int) (nextId : Nat), zones ≠ [] →
      min maxCount ((zones.length : Int) * 35) ≤ pool.length →
      ensureRainParticles cr rng pool zones maxCount nextId = ⟨pool, [], nextId⟩) ∧
    (∀ (cr : Bool) (rng : Nat → ℚ) (pool : List WindParticle) (zones : List Zone)
        (maxCount : Int) (nextId : Nat), zones ≠ [] →
      min maxCount ((zones.length : Int) * 12) ≤ pool.length →
      ensureWindParticles cr rng pool zones maxCount nextId = ⟨pool, [], nextId⟩) ∧
    (∀ (cr : Bool) (rng : Nat → ℚ) (pool : List SnowParticle) (zones : List Zone)
        (maxCount : Int) (nextId : Nat), zones ≠ [] →
      min maxCount ((zones.length : Int) * 20) ≤ pool.length →
      ensureSnowParticles cr rng pool zones maxCount nextId = ⟨pool, [], nextId⟩) := by
  refine ⟨?_, ?_, ?_⟩
  · intro cr rng pool zones maxCount nextId hz htgt
    have hz' : zones.length ≠ 0 := fun h => hz (List.length_eq_zero.mp h)
    have h0 : (min maxCount ((zones.length : Int) * 35) - pool.length).toNat = 0 := by omega
    unfold ensureRainParticles
    by_cases hcr : cr = false
    · rw [if_pos hcr]
    · rw [if_neg hcr, if_neg (fun h => hz' h.2), if_neg (fun h => hz' h.1),
        if_neg hz', h0]
      simp
  · intro cr rng pool zones maxCount nextId hz htgt
    have hz' : zones.length ≠ 0 := fun h => hz (List.length_eq_zero.mp h)
    have h0 : (min maxCount ((zones.length : Int) * 12) - pool.length).toNat = 0 := by omega
    unfold ensureWindParticles
    by_cases hcr : cr = false
    · rw [if_pos hcr]
    · rw [if_neg hcr, if_neg (fun h => hz' h.2), if_neg (fun h => hz' h.1),
        if_neg hz', h0]
      simp
  · intro cr rng pool zones maxCount nextId hz htgt
    have hz' : zones.length ≠ 0 := fun h => hz (List.length_eq_zero.mp h)
    have h0 : (min maxCount ((zones.length : Int) * 20) - pool.length).toNat = 0 := by omega
    unfold ensureSnowParticles
    by_cases hcr : cr = false
    · rw [if_pos hcr]
    · rw [if_neg hcr, if_neg (fun h => hz' h.2), if_neg (fun h => hz' h.1),
        if_neg hz', h0]
      simp

/-- Witness for C7: with one visible zone and `maxCount = 0`, a one-particle
pool of each kind is left untouched. -/
theorem reconcile_nonempty_zones_no_shrink_witness :
    ensureRainParticles true (fun _ => 0) [rainP0] [zoneA] 0 5 = ⟨[rainP0], [], 5⟩ ∧
    ensureWindParticles true (fun _ => 0) [windP0] [zoneA] 0 5 = ⟨[windP0], [], 5⟩ ∧
    ensureSnowParticles true (fun _ => 0) [snowP0] [zoneA] 0 5 = ⟨[snowP0], [], 5⟩ := by
  obtain ⟨hr, hw, hs⟩ := reconcile_nonempty_zones_no_shrink
  exact ⟨hr true (fun _ => 0) [rainP0] [zoneA] 0 5 (by simp) (by simp),
    hw true (fun _ => 0) [windP0] [zoneA] 0 5 (by simp) (by simp),
    hs true (fun _ => 0) [snowP0] [zoneA] 0 5 (by simp) (by simp)⟩

/-- C10: home-zone fields are assigned at creation and never modified:
every integration step preserves them, a reconcile never mutates surviving
particles (the pool is either emptied or extended on the right), and each
recycle repositions the particle relative to its own original zone bounds
(rain and snow: back to just above the zone at a horizontal offset inside
`[zoneX, zoneX + zoneW]`; wind: to just left of the zone). -/
theorem particles_keep_home_zone :
    (∀ (rng : Nat → ℚ) (i : Nat) (dt : ℚ) (p : RainParticle),
      (stepRainParticle rng i dt p).zoneX = p.zoneX ∧
      (stepRainParticle rng i dt p).zoneY = p.zoneY ∧
      (stepRainParticle rng i dt p).zoneW = p.zoneW ∧
      (stepRainParticle rng i dt p).zoneH = p.zoneH) ∧
    (∀ (dt : ℚ) (p : WindParticle),
      (stepWindParticle dt p).zoneX = p.zoneX ∧
      (stepWindParticle dt p).zoneW = p.zoneW) ∧
    (∀ (rng : Nat → ℚ) (i : Nat) (dt : ℚ) (p : SnowParticle),
      (stepSnowParticle rng i dt p).zoneX = p.zoneX ∧
      (stepSnowParticle rng i dt p).zoneY = p.zoneY ∧
      (stepSnowParticle rng i dt p).zoneW = p.zoneW ∧
      (stepSnowParticle rng i dt p).zoneH = p.zoneH) ∧
    (∀ (cr : Bool) (rng : Nat → ℚ) (pool : List RainParticle) (zones : List Zone)
        (maxCount : Int) (nextId : Nat),
      (ensureRainParticles cr rng pool zones maxCount nextId).pool = [] ∨
      ∃ created, (ensureRainParticles cr rng pool zones maxCount nextId).pool =
        pool ++ created) ∧
    (∀ (cr : Bool) (rng : Nat → ℚ) (pool : List WindParticle) (zones : List Zone)
        (maxCount : Int) (nextId : Nat),
      (ensureWindParticles cr rng pool zones maxCount nextId).pool = [] ∨
      ∃ created, (ensureWindParticles cr rng pool zones maxCount nextId).pool =
        pool ++ created) ∧
    (∀ (cr : Bool) (rng : Nat → ℚ) (pool : List SnowParticle) (zones : List Zone)
        (maxCount : Int) (nextId : Nat),
      (ensureSnowParticles cr rng pool zones maxCount nextId).pool = [] ∨
      ∃ created, (ensureSnowParticles cr rng pool zones maxCount nextId).pool =
        pool ++ created) ∧
    (∀ (rng : Nat → ℚ) (i : Nat) (dt : ℚ) (p : RainParticle),
      0 ≤ rng i → rng i ≤ 1 → 0 ≤ p.zoneW →
      p.y + p.vy * dt > p.zoneY + p.zoneH + 20 →
      (stepRainParticle rng i dt p).y = p.zoneY - 10 ∧
      p.zoneX ≤ (stepRainParticle rng i dt p).x ∧
      (stepRainParticle rng i dt p).x ≤ p.zoneX + p.zoneW) ∧
    (∀ (dt : ℚ) (p : WindParticle),
      p.x + p.vx * dt > p.zoneX + p.zoneW + 20 →
      (stepWindParticle dt p).x = p.zoneX - 10) ∧
    (∀ (rng : Nat → ℚ) (i : Nat) (dt : ℚ) (p : SnowParticle),
      0 ≤ rng i → rng i ≤ 1 → 0 ≤ p.zoneW →
      p.y + p.vy * dt > p.zoneY + p.zoneH + 10 →
      (stepSnowParticle rng i dt p).y = p.zoneY - 5 ∧
      p.zoneX ≤ (stepSnowParticle rng i dt p).x ∧
      (stepSnowParticle rng i dt p).x ≤ p.zoneX + p.zoneW) := by
  refine ⟨?_, ?_, ?_, ?_, ?_, ?_, ?_, ?_, ?_⟩
  · intro rng i dt p
    simp only [stepRainParticle]
    split_ifs <;> exact ⟨rfl, rfl, rfl, rfl⟩
  · intro dt p
    simp only [stepWindParticle]
    split_ifs <;> exact ⟨rfl, rfl⟩
  · intro rng i dt p
    simp only [stepSnowParticle]
    split_ifs <;> exact ⟨rfl, rfl, rfl, rfl⟩
  · intro cr rng pool zones maxCount nextId
    unfold ensureRainParticles
    split_ifs
    · exact Or.inr ⟨[], (List.append_nil pool).symm⟩
    · exact Or.inl rfl
    · exact Or.inl rfl
    · exact Or.inr ⟨_, rfl⟩
    · exact Or.inr ⟨_, rfl⟩
  · intro cr rng pool zones maxCount nextId
    unfold ensureWindParticles
    split_ifs
    · exact Or.inr ⟨[], (List.append_nil pool).symm⟩
    · exact Or.inl rfl
    · exact Or.inl rfl
    · exact Or.inr ⟨_, rfl⟩
    · exact Or.inr ⟨_, rfl⟩
  · intro cr rng pool zones maxCount nextId
    unfold ensureSnowParticles
    split_ifs
    · exact Or.inr ⟨[], (List.append_nil pool).symm⟩
    · exact Or.inl rfl
    · exact Or.inl rfl
    · exact Or.inr ⟨_, rfl⟩
    · exact Or.inr ⟨_, rfl⟩
  · intro rng i dt p h0 h1 hw hcond
    unfold stepRainParticle
    rw [if_pos hcond]
    refine ⟨rfl, ?_, ?_⟩
    · have : 0 ≤ rng i * p.zoneW := mul_nonneg h0 hw
      simp only []
      linarith
    · have : rng i * p.zoneW ≤ 1 * p.zoneW := mul_le_mul_of_nonneg_right h1 hw
      simp only []
      linarith
  · intro dt p hcond
    unfold stepWindParticle
    rw [if_pos hcond]
  · intro rng i dt p h0 h1 hw hcond
    unfold stepSnowParticle
    rw [if_pos hcond]
    refine ⟨rfl, ?_, ?_⟩
    · have : 0 ≤ rng i * p.zoneW := mul_nonneg h0 hw
      simp only []
      linarith
    · have : rng i * p.zoneW ≤ 1 * p.zoneW := mul_le_mul_of_nonneg_right h1 hw
      simp only []
      linarith

/-- Witness for C10 at concrete recycling particles: a rain particle, a
wind particle and a snow particle that each overshoot their home zone in
one step are repositioned relative to that same zone. -/
theorem particles_keep_home_zone_witness :
    ((stepRainParticle (fun _ => 0) 0 20 ⟨7, 0, 600, 0, 1, 0, 0, 512, 512⟩).zoneX = 0 ∧
      (stepRainParticle (fun _ => 0) 0 20 ⟨7, 0, 600, 0, 1, 0, 0, 512, 512⟩).y = 0 - 10 ∧
      (0 : ℚ) ≤ (stepRainParticle (fun _ => 0) 0 20 ⟨7, 0, 600, 0, 1, 0, 0, 512, 512⟩).x ∧
      (stepRainParticle (fun _ => 0) 0 20 ⟨7, 0, 600, 0, 1, 0, 0, 512, 512⟩).x ≤ 0 + 512) ∧
    (stepWindParticle 20 ⟨8, 600, 0, 1, 0, 512⟩).x = 0 - 10 ∧
    ((stepSnowParticle (fun _ => 0) 0 20 ⟨9, 0, 600, 1, 0, 0, 0, 512, 512⟩).y = 0 - 5 ∧
      (0 : ℚ) ≤ (stepSnowParticle (fun _ => 0) 0 20 ⟨9, 0, 600, 1, 0, 0, 0, 512, 512⟩).x ∧
      (stepSnowParticle (fun _ => 0) 0 20 ⟨9, 0, 600, 1, 0, 0, 0, 512, 512⟩).x ≤ 0 + 512) := by
  obtain ⟨hr, -, -, -, -, -, hrrec, hwrec, hsrec⟩ := particles_keep_home_zone
  refine ⟨?_, ?_, ?_⟩
  · obtain ⟨hy, hx1, hx2⟩ := hrrec (fun _ => 0) 0 20 ⟨7, 0, 600, 0, 1, 0, 0, 512, 512⟩
      (by norm_num) (by norm_num) (by norm_num) (by norm_num)
    exact ⟨(hr (fun _ => 0) 0 20 ⟨7, 0, 600, 0, 1, 0, 0, 512, 512⟩).1, hy, hx1, hx2⟩
  · exact hwrec 20 ⟨8, 600, 0, 1, 0, 512⟩ (by norm_num)
  · obtain ⟨hy, hx1, hx2⟩ := hsrec (fun _ => 0) 0 20 ⟨9, 0, 600, 1, 0, 0, 0, 512, 512⟩
      (by norm_num) (by norm_num) (by norm_num) (by norm_num)
    exact ⟨hy, hx1, hx2⟩

/-! ## Lightning state machine -/

/-- Lightning phases: `'first' | 'dim' | 'second' | 'out'`. -/
inductive LPhase
  | first
  | dim
  | second
  | out
deriving DecidableEq, Repr

/-- Lightning state: whether the flash node exists (`lightningGraphics`
non-null), the current `lightningAlpha` and `lightningPhase`. -/
structure Lightning where
  node : Bool
  alpha : ℚ
  phase : LPhase
deriving DecidableEq, Repr

/-- The state set by a successful `triggerLightning`: a fresh flash node
with `alpha = 0.92` and phase `first`. -/
def lightningInit : Lightning := ⟨true, 92/100, .first⟩

/-- `updateLightning(dt)`: no-op when no node exists; otherwise decay by
phase (`first` fast to the `0.25` floor, `dim` slowly to the `0.15` floor
popping back to `0.65` in `second`, `second` and `out` fast), then destroy
the node and reset the phase to `out` once alpha is `≤ 0`. -/
def updateLightning (dt : ℚ) (s : Lightning) : Lightning :=
  if s.node = false then s
  else
    let next : ℚ × LPhase :=
      match s.phase with
      | .first =>
          if s.alpha - dt * 7 ≤ 25/100 then (25/100, .dim)
          else (s.alpha - dt * 7, .first)
      | .dim =>
          if s.alpha - dt * 2 ≤ 15/100 then (65/100, .second)
          else (s.alpha - dt * 2, .dim)
      | .second =>
          if s.alpha - dt * 7 ≤ 0 then (s.alpha - dt * 7, .out)
          else (s.alpha - dt * 7, .second)
      | .out => (s.alpha - dt * 7, .out)
    if next.1 ≤ 0 then ⟨false, next.1, .out⟩
    else ⟨true, next.1, next.2⟩

theorem updateLightning_dead (dt : ℚ) (s : Lightning) (h : s.node = false) :
    updateLightning dt s = s := by
  unfold updateLightning
  rw [if_pos h]

theorem updateLightning_dead_iter (dt : ℚ) (s : Lightning) (h : s.node = false)
    (n : Nat) : (updateLightning dt)^[n] s = s := by
  induction n with
  | zero => rfl
  | succ n ih => rw [Function.iterate_succ_apply, updateLightning_dead dt s h, ih]

theorem update_first_stay (dt a : ℚ) (h : ¬ a - dt * 7 ≤ 25/100) :
    updateLightning dt ⟨true, a, .first⟩ = ⟨true, a - dt * 7, .first⟩ := by
  simp only [updateLightning]
  rw [if_neg (by simp), if_neg h, if_neg (by simp; linarith)]

theorem update_first_dim (dt a : ℚ) (h : a - dt * 7 ≤ 25/100) :
    updateLightning dt ⟨true, a, .first⟩ = ⟨true, 25/100, .dim⟩ := by
  simp only [updateLightning]
  rw [if_neg (by simp), if_pos h, if_neg (by norm_num)]

theorem update_dim_stay (dt a : ℚ) (h : ¬ a - dt * 2 ≤ 15/100) :
    updateLightning dt ⟨true, a, .dim⟩ = ⟨true, a - dt * 2, .dim⟩ := by
  simp only [updateLightning]
  rw [if_neg (by simp), if_neg h, if_neg (by simp; linarith)]

theorem update_dim_second (dt a : ℚ) (h : a - dt * 2 ≤ 15/100) :
    updateLightning dt ⟨true, a, .dim⟩ = ⟨true, 65/100, .second⟩ := by
  simp only [updateLightning]
  rw [if_neg (by simp), if_pos h, if_neg (by norm_num)]

theorem update_second_stay (dt a : ℚ) (h : ¬ a - dt * 7 ≤ 0) :
    updateLightning dt ⟨true, a, .second⟩ = ⟨true, a - dt * 7, .second⟩ := by
  simp only [updateLightning]
  rw [if_neg (by simp), if_neg h, if_neg h]

theorem update_second_out (dt a : ℚ) (h : a - dt * 7 ≤ 0) :
    updateLightning dt ⟨true, a, .second⟩ = ⟨false, a - dt * 7, .out⟩ := by
  simp only [updateLightning]
  rw [if_neg (by simp), if_pos h, if_pos h]

theorem first_reaches_dim (dt : ℚ) :
    ∀ (k : Nat) (a : ℚ), 25/100 < a → a ≤ 25/100 + dt * 7 * ((k : ℚ) + 1) →
    ∃ n : Nat, 1 ≤ n ∧
      (∀ m, m < n → (updateLightning dt)^[m] ⟨true, a, .first⟩ =
        ⟨true, a - dt * 7 * (m : ℚ), .first⟩) ∧
      (updateLightning dt)^[n] ⟨true, a, .first⟩ = ⟨true, 25/100, .dim⟩ := by
  intro k
  induction k with
  | zero =>
    intro a ha hub
    refine ⟨1, le_refl 1, ?_, ?_⟩
    · intro m hm
      have hm0 : m = 0 := by omega
      subst hm0
      simp
    · rw [Function.iterate_one]
      exact update_first_dim dt a (by push_cast at hub; linarith)
  | succ k ih =>
    intro a ha hub
    by_cases hstep : a - dt * 7 ≤ 25/100
    · refine ⟨1, le_refl 1, ?_, ?_⟩
      · intro m hm
        have hm0 : m = 0 := by omega
        subst hm0
        simp
      · rw [Function.iterate_one]
        exact update_first_dim dt a hstep
    · have hsplit : dt * 7 * (((k : ℚ) + 1) + 1) = dt * 7 * ((k : ℚ) + 1) + dt * 7 := by
        ring
      obtain ⟨n, hn1, hchar, hend⟩ := ih (a - dt * 7) (by linarith)
        (by push_cast at hub ⊢; linarith [hsplit])
      refine ⟨n + 1, by omega, ?_, ?_⟩
      · intro m hm
        cases m with
        | zero => simp
        | succ m' =>
          rw [Function.iterate_succ_apply, update_first_stay dt a hstep,
            hchar m' (by omega)]
          congr 1
          push_cast
          ring
      · rw [Function.iterate_succ_apply, update_first_stay dt a hstep, hend]

theorem dim_reaches_second (dt : ℚ) :
    ∀ (k : Nat) (a : ℚ), 15/100 < a → a ≤ 15/100 + dt * 2 * ((k : ℚ) + 1) →
    ∃ n : Nat, 1 ≤ n ∧
      (∀ m, m < n → (updateLightning dt)^[m] ⟨true, a, .dim⟩ =
        ⟨true, a - dt * 2 * (m : ℚ), .dim⟩) ∧
      (updateLightning dt)^[n] ⟨true, a, .dim⟩ = ⟨true, 65/100, .second⟩ := by
  intro k
  induction k with
  | zero =>
    intro a ha hub
    refine ⟨1, le_refl 1, ?_, ?_⟩
    · intro m hm
      have hm0 : m = 0 := by omega
      subst hm0
      simp
    · rw [Function.iterate_one]
      exact update_dim_second dt a (by push_cast at hub; linarith)
  | succ k ih =>
    intro a ha hub
    by_cases hstep : a - dt * 2 ≤ 15/100
    · refine ⟨1, le_refl 1, ?_, ?_⟩
      · intro m hm
        have hm0 : m = 0 := by omega
        subst hm0
        simp
      · rw [Function.iterate_one]
        exact update_dim_second dt a hstep
    · have hsplit : dt * 2 * (((k : ℚ) + 1) + 1) = dt * 2 * ((k : ℚ) + 1) + dt * 2 := by
        ring
      obtain ⟨n, hn1, hchar, hend⟩ := ih (a - dt * 2) (by linarith)
        (by push_cast at hub ⊢; linarith [hsplit])
      refine ⟨n + 1, by omega, ?_, ?_⟩
      · intro m hm
        cases m with
        | zero => simp
        | succ m' =>
          rw [Function.iterate_succ_apply, update_dim_stay dt a hstep,
            hchar m' (by omega)]
          congr 1
          push_cast
          ring
      · rw [Function.iterate_succ_apply, update_dim_stay dt a hstep, hend]

theorem second_reaches_out (dt : ℚ) :
    ∀ (k : Nat) (a : ℚ), 0 < a → a ≤ dt * 7 * ((k : ℚ) + 1) →
    ∃ n : Nat, 1 ≤ n ∧
      (∀ m, m < n → (updateLightning dt)^[m] ⟨true, a, .second⟩ =
        ⟨true, a - dt * 7 * (m : ℚ), .second⟩) ∧
      (updateLightning dt)^[n] ⟨true, a, .second⟩ =
        ⟨false, a - dt * 7 * (n : ℚ), .out⟩ ∧
      a - dt * 7 * (n : ℚ) ≤ 0 := by
  intro k
  induction k with
  | zero =>
    intro a ha hub
    refine ⟨1, le_refl 1, ?_, ?_, ?_⟩
    · intro m hm
      have hm0 : m = 0 := by omega
      subst hm0
      simp
    · rw [Function.iterate_one]
      have := update_second_out dt a (by push_cast at hub; linarith)
      rw [this]
      congr 1
      push_cast
      ring
    · push_cast
      push_cast at hub
      linarith
  | succ k ih =>
    intro a ha hub
    by_cases hstep : a - dt * 7 ≤ 0
    · refine ⟨1, le_refl 1, ?_, ?_, ?_⟩
      · intro m hm
        have hm0 : m = 0 := by omega
        subst hm0
        simp
      · rw [Function.iterate_one]
        have := update_second_out dt a hstep
        rw [this]
        congr 1
        push_cast
        ring
      · push_cast
        linarith
    · have hsplit : dt * 7 * (((k : ℚ) + 1) + 1) = dt * 7 * ((k : ℚ) + 1) + dt * 7 := by
        ring
      obtain ⟨n, hn1, hchar, hend, hneg⟩ := ih (a - dt * 7) (by linarith)
        (by push_cast at hub ⊢; linarith [hsplit])
      refine ⟨n + 1, by omega, ?_, ?_, ?_⟩
      · intro m hm
        cases m with
        | zero => simp
        | succ m' =>
          rw [Function.iterate_succ_apply, update_second_stay dt a hstep,
            hchar m' (by omega)]
          congr 1
          push_cast
          ring
      · rw [Function.iterate_succ_apply, update_second_stay dt a hstep, hend]
        congr 1
        push_cast
        ring
      · push_cast
        linarith

theorem node_iff_of_step (q : ℚ × LPhase) :
    ((if q.1 ≤ 0 then (⟨false, q.1, .out⟩ : Lightning) else ⟨true, q.1, q.2⟩).node = true ↔
      0 < (if q.1 ≤ 0 then (⟨false, q.1, .out⟩ : Lightning) else ⟨true, q.1, q.2⟩).alpha) := by
  by_cases hq : q.1 ≤ 0
  · rw [if_pos hq]
    exact iff_of_false (by simp) (not_lt.mpr hq)
  · rw [if_neg hq]
    exact iff_of_true rfl (not_le.mp hq)

theorem updateLightning_preserves_node_iff (dt : ℚ) (s : Lightning)
    (h : s.node = true ↔ 0 < s.alpha) :
    (updateLightning dt s).node = true ↔ 0 < (updateLightning dt s).alpha := by
  obtain ⟨node, alpha, phase⟩ := s
  cases node with
  | false =>
    rw [updateLightning_dead dt _ rfl]
    exact h
  | true =>
    cases phase <;>
      (unfold updateLightning
       rw [if_neg (by simp)]
       exact node_iff_of_step _)

theorem lightning_trace_node_iff_alpha_pos (dt : ℚ) (s : Lightning)
    (h : s.node = true ↔ 0 < s.alpha) (n : Nat) :
    ((updateLightning dt)^[n] s).node = true ↔
      0 < ((updateLightning dt)^[n] s).alpha := by
  induction n with
  | zero => exact h
  | succ n ih =>
    rw [Function.iterate_succ_apply']
    exact updateLightning_preserves_node_iff dt _ ih

/-- C3: after a trigger (`phase = first`, `alpha = 0.92`, node present),
iterating `updateLightning` with any fixed positive `dt` visits the phases
`first`, `dim`, `second`, `out` in exactly that order (never skipping
`dim`): there are cut points `n1 < n2 < n3` delimiting the maximal runs of
each phase, the node exists throughout the first three runs and is
destroyed exactly at the step where alpha reaches zero — at every step,
the node exists if and only if alpha is strictly positive. -/
theorem lightning_four_phase_sequence (dt : ℚ) (hdt : 0 < dt) :
    ∃ n1 n2 n3 : Nat, 0 < n1 ∧ n1 < n2 ∧ n2 < n3 ∧
      (∀ m, m < n1 → ((updateLightning dt)^[m] lightningInit).phase = .first ∧
        ((updateLightning dt)^[m] lightningInit).node = true) ∧
      (∀ m, n1 ≤ m → m < n2 →
        ((updateLightning dt)^[m] lightningInit).phase = .dim ∧
        ((updateLightning dt)^[m] lightningInit).node = true) ∧
      (∀ m, n2 ≤ m → m < n3 →
        ((updateLightning dt)^[m] lightningInit).phase = .second ∧
        ((updateLightning dt)^[m] lightningInit).node = true) ∧
      (∀ m, n3 ≤ m → ((updateLightning dt)^[m] lightningInit).phase = .out ∧
        ((updateLightning dt)^[m] lightningInit).node = false) ∧
      (∀ m, ((updateLightning dt)^[m] lightningInit).node = true ↔
        0 < ((updateLightning dt)^[m] lightningInit).alpha) := by
  obtain ⟨k1, hk1⟩ := exists_nat_gt ((92/100 - 25/100) / (dt * 7))
  rw [div_lt_iff₀ (by positivity)] at hk1
  obtain ⟨n1, hn1pos, hchar1, hend1⟩ := first_reaches_dim dt k1 (92/100)
    (by norm_num) (by nlinarith)
  obtain ⟨k2, hk2⟩ := exists_nat_gt ((25/100 - 15/100) / (dt * 2))
  rw [div_lt_iff₀ (by positivity)] at hk2
  obtain ⟨n2, hn2pos, hchar2, hend2⟩ := dim_reaches_second dt k2 (25/100)
    (by norm_num) (by nlinarith)
  obtain ⟨k3, hk3⟩ := exists_nat_gt ((65/100) / (dt * 7))
  rw [div_lt_iff₀ (by positivity)] at hk3
  obtain ⟨n3, hn3pos, hchar3, hend3, hneg3⟩ := second_reaches_out dt k3 (65/100)
    (by norm_num) (by nlinarith)
  refine ⟨n1, n1 + n2, n1 + n2 + n3, by omega, by omega, by omega, ?_, ?_, ?_, ?_, ?_⟩
  · intro m hm
    simp only [lightningInit]
    rw [hchar1 m hm]
    exact ⟨rfl, rfl⟩
  · intro m hm1 hm2
    have hm : m = (m - n1) + n1 := by omega
    simp only [lightningInit]
    rw [hm, Function.iterate_add_apply, hend1, hchar2 (m - n1) (by omega)]
    exact ⟨rfl, rfl⟩
  · intro m hm1 hm2
    have hm : m = (m - (n1 + n2)) + n2 + n1 := by omega
    simp only [lightningInit]
    rw [hm, Function.iterate_add_apply, Function.iterate_add_apply, hend1, hend2,
      hchar3 (m - (n1 + n2)) (by omega)]
    exact ⟨rfl, rfl⟩
  · intro m hm1
    have hm : m = (m - (n1 + n2 + n3)) + n3 + n2 + n1 := by omega
    simp only [lightningInit]
    rw [hm, Function.iterate_add_apply, Function.iterate_add_apply,
      Function.iterate_add_apply, hend1, hend2, hend3,
      updateLightning_dead_iter dt _ rfl]
    exact ⟨rfl, rfl⟩
  · exact lightning_trace_node_iff_alpha_pos dt lightningInit (by norm_num [lightningInit])

/-- Witness for C3 at `dt = 1`. -/
theorem lightning_four_phase_sequence_witness :
    ∃ n1 n2 n3 : Nat, 0 < n1 ∧ n1 < n2 ∧ n2 < n3 ∧
      (∀ m, m < n1 → ((updateLightning 1)^[m] lightningInit).phase = .first ∧
        ((updateLightning 1)^[m] lightningInit).node = true) ∧
      (∀ m, n1 ≤ m → m < n2 →
        ((updateLightning 1)^[m] lightningInit).phase = .dim ∧
        ((updateLightning 1)^[m] lightningInit).node = true) ∧
      (∀ m, n2 ≤ m → m < n3 →
        ((updateLightning 1)^[m] lightningInit).phase = .second ∧
        ((updateLightning 1)^[m] lightningInit).node = true) ∧
      (∀ m, n3 ≤ m → ((updateLightning 1)^[m] lightningInit).phase = .out ∧
        ((updateLightning 1)^[m] lightningInit).node = false) ∧
      (∀ m, ((updateLightning 1)^[m] lightningInit).node = true ↔
        0 < ((updateLightning 1)^[m] lightningInit).alpha) :=
  lightning_four_phase_sequence 1 (by norm_num)

/-! ## Weather driver (the per-frame ticker callback and `stopTicker`) -/

/-- One intensity preset of `WEATHER_LEVEL`. -/
structure Level where
  rain : Int
  wind : Int
  snow : Int
  stormChance : ℚ
deriving DecidableEq, Repr

/-- `getWeatherLevel()`: look up the configured preset, defaulting to
`high` both for a missing configuration and for an unknown key. -/
def getWeatherLevel (cfg : Option String) : Level :=
  match cfg.getD "high" with
  | "none" => ⟨0, 0, 0, 0⟩
  | "low" => ⟨120, 35, 45, 15/1000⟩
  | _ => ⟨320, 90, 110, 35/1000⟩

/-- `grid[z.zy]?.[z.zx]` used by the per-frame zone partition. -/
def weatherAt (grid : List (List WeatherType)) (z : Zone) : Option WeatherType :=
  if z.zy < 0 ∨ z.zx < 0 then none
  else (grid[z.zy.toNat]?).bind fun row => row[z.zx.toNat]?

/-- Driver state: the three pools, the lazily created rain container, the
outer component container, the storm overlay node (`some visible?` when
created), the lightning state, the storm accumulator and the node-id
counter. -/
structure DriverState where
  rainPool : List RainParticle
  windPool : List WindParticle
  snowPool : List SnowParticle
  containerReady : Bool
  rainContainerReady : Bool
  stormOverlay : Option Bool
  lightning : Lightning
  stormAccum : ℚ
  nextId : Nat
deriving DecidableEq, Repr

/-- `setupContainers()`: create the rain sub-container once, when the
outer container exists. -/
def setupContainers (s : DriverState) : DriverState :=
  if s.rainContainerReady then s
  else if s.containerReady then { s with rainContainerReady := true }
  else s

/-- `ensureStormOverlay(hasStorm)`: lazily create the overlay and toggle
its visibility; never destroyed here. -/
def ensureStormOverlay (containerReady hasStorm : Bool) (ov : Option Bool) :
    Option Bool :=
  if containerReady = false then ov
  else if hasStorm then some true
  else
    match ov with
    | some _ => some false
    | none => ov

/-- `triggerLightning(stormZones)`: replace any flash in progress with a
fresh node at `alpha = 0.92`, phase `first` (the flash rectangles over up
to two random storm zones and the thunder audio cue are purely visual and
are not part of the embedded state). -/
def triggerLightning (containerReady : Bool) (stormZones : List Zone)
    (L : Lightning) : Lightning :=
  if containerReady = false ∨ stormZones = [] then L
  else lightningInit

/-- `tryLightning(dt, stormZones)`: advance the 0.5-second sampling
accumulator and, when it elapses, draw `r` against the configured storm
chance, triggering a flash on success. -/
def tryLightning (level : Level) (dt : ℚ) (stormZones : List Zone) (r : ℚ)
    (containerReady : Bool) (accum : ℚ) (L : Lightning) : ℚ × Lightning :=
  if stormZones = [] then (accum, L)
  else if level.stormChance ≤ 0 then (accum, L)
  else if accum + dt < 1/2 then (accum + dt, L)
  else if r > level.stormChance then (0, L)
  else (0, triggerLightning containerReady stormZones L)

/-- One frame of the ticker callback in `startTicker`: set up containers,
early-return on an empty grid or an all-zero intensity, otherwise cull
zones, partition by weather, reconcile the three pools and the overlay,
integrate all particles and run the lightning machine.  `rng` is the
`Math.random()` oracle; draw indices are interleaved by consumer. -/
def tick (cfg : Option String) (grid : List (List WeatherType))
    (cornerX cornerY viewW viewH : ℚ) (dt : ℚ) (rng : Nat → ℚ)
    (s : DriverState) : DriverState :=
  let s1 := setupContainers s
  let zoneRows := grid.length
  let zoneCols := ((grid[0]?).map List.length).getD 0
  if zoneRows = 0 ∨ zoneCols = 0 then s1
  else
    let level := getWeatherLevel cfg
    if level.rain = 0 ∧ level.wind = 0 ∧ level.snow = 0 then s1
    else
      let zones := getVisibleZones cornerX cornerY viewW viewH zoneRows zoneCols
      let rainZones := zones.filter fun z =>
        weatherAt grid z = some .rain ∨ weatherAt grid z = some .storm
      let windZones := zones.filter fun z => weatherAt grid z = some .wind
      let snowZones := zones.filter fun z => weatherAt grid z = some .snow
      let stormZones := zones.filter fun z => weatherAt grid z = some .storm
      let rRes := ensureRainParticles s1.rainContainerReady (fun k => rng (7 * k))
        s1.rainPool rainZones level.rain s1.nextId
      let wRes := ensureWindParticles s1.containerReady (fun k => rng (7 * k + 1))
        s1.windPool windZones level.wind rRes.nextId
      let sRes := ensureSnowParticles s1.containerReady (fun k => rng (7 * k + 2))
        s1.snowPool snowZones level.snow wRes.nextId
      let ov := ensureStormOverlay s1.containerReady (decide (stormZones.length > 0))
        s1.stormOverlay
      let rainPool2 := rRes.pool.mapIdx fun i p =>
        stepRainParticle (fun k => rng (7 * k + 3)) i dt p
      let windPool2 := wRes.pool.map fun p => stepWindParticle dt p
      let snowPool2 := sRes.pool.mapIdx fun i p =>
        stepSnowParticle (fun k => rng (7 * k + 4)) i dt p
      let tl := tryLightning level dt stormZones (rng 5) s1.containerReady
        s1.stormAccum s1.lightning
      let L2 := updateLightning dt tl.2
      { rainPool := rainPool2, windPool := windPool2, snowPool := snowPool2,
        containerReady := s1.containerReady,
        rainContainerReady := s1.rainContainerReady,
        stormOverlay := ov, lightning := L2, stormAccum := tl.1,
        nextId := sRes.nextId }

/-- `stopTicker()`: reset the accumulator, hide (not destroy) the storm
overlay, destroy the lightning node, destroy all pooled particles and
clear the three pools.  The lazily created containers are kept. -/
def stopTicker (s : DriverState) : DriverState :=
  { s with
    stormAccum := 0,
    stormOverlay := s.stormOverlay.map fun _ => false,
    lightning := ⟨false, s.lightning.alpha, s.lightning.phase⟩,
    rainPool := [], windPool := [], snowPool := [] }

/-- A driver state mid-storm: a live rain particle, a visible overlay and
a lightning flash in progress. -/
def stormyState : DriverState :=
  ⟨[rainP0], [], [], true, true, some true, ⟨true, 1/2, .second⟩, 0, 5⟩

/-- C5 counterexample: one tick with the `none` preset performs NO
teardown: on the all-zero early return the state (non-empty rain pool,
existing storm overlay node, existing lightning node) is returned
untouched, even though the grid holds a storm zone. -/
theorem tick_none_is_not_teardown :
    tick (some "none") [[.storm]] 0 0 100 100 1 (fun _ => 0) stormyState =
      stormyState ∧
    stormyState.rainPool ≠ [] ∧
    stormyState.stormOverlay = some true ∧
    stormyState.lightning.node = true := by
  refine ⟨rfl, by simp [stormyState], rfl, rfl⟩

/-- C5 amended: with the `none` preset the per-frame tick is an early
return that leaves every pool, the overlay and the lightning node exactly
as they were (after the idempotent container setup); the teardown happens
outside the tick, in the `stopTicker` called by the configuration watcher,
which empties all pools, resets the accumulator and destroys the lightning
node — but only hides the storm overlay node, which is destroyed on
unmount, not here. -/
theorem tick_none_identity_and_stopTicker_teardown (grid : List (List WeatherType))
    (cornerX cornerY viewW viewH dt : ℚ) (rng : Nat → ℚ) (s : DriverState)
    (h : s.rainContainerReady = true) :
    tick (some "none") grid cornerX cornerY viewW viewH dt rng s = s ∧
    (stopTicker s).rainPool = [] ∧ (stopTicker s).windPool = [] ∧
    (stopTicker s).snowPool = [] ∧ (stopTicker s).lightning.node = false ∧
    (stopTicker s).stormAccum = 0 ∧
    (stopTicker s).stormOverlay = s.stormOverlay.map (fun _ => false) := by
  have hsetup : setupContainers s = s := by
    unfold setupContainers
    rw [if_pos h]
  refine ⟨?_, rfl, rfl, rfl, rfl, rfl, rfl⟩
  unfold tick
  rw [hsetup]
  by_cases hg : grid.length = 0 ∨ ((grid[0]?).map List.length).getD 0 = 0
  · rw [if_pos hg]
  · rw [if_neg hg, if_pos (by norm_num [getWeatherLevel])]

/-- Witness for C5 at the concrete mid-storm state. -/
theorem tick_none_identity_witness :
    tick (some "none") [[.storm]] 0 0 100 100 1 (fun _ => 0) stormyState =
      stormyState ∧
    (stopTicker stormyState).rainPool = [] ∧
    (stopTicker stormyState).lightning.node = false ∧
    (stopTicker stormyState).stormOverlay = some false := by
  obtain ⟨h1, h2, -, -, h5, -, h7⟩ := tick_none_identity_and_stopTicker_teardown
    [[.storm]] 0 0 100 100 1 (fun _ => 0) stormyState rfl
  exact ⟨h1, h2, h5, by rw [h7]; rfl⟩

end WeatherCore
